import Mathlib

/-!
# Coderr marketplace backend — verification development

Shallow embedding of the Coderr Django backend (offers, orders, reviews,
profiles apps).  Database tables are lists of rows inside a `Store`;
request handlers become pure functions `Store → … → Store × Except ApiError β`
so that a failing request returns the unchanged store (Django wraps the
mutating handlers in `transaction.atomic`).  Machine-level concerns
(HTTP transport, serialisation to JSON) are outside the model; field
values arriving from JSON keep their wire types (strings for query
parameters, `Int`/`Rat` for already-deserialised numeric fields).
-/

namespace Coderr

/-! ## Data model (`offers/models.py`, `orders/models.py`, `reviews/models.py`,
`profiles/models.py`, auth user) -/

/-- A row of the auth user table (only the fields the modelled code reads). -/
structure UserRow where
  id : Nat
  deriving Repr, DecidableEq

/-- A row of the profile table: `Profile.user` (one per user) and the
role field `Profile.type` (`"customer"`, `"business"`, or `""`). -/
structure ProfileRow where
  userId : Nat
  type : String
  deriving Repr, DecidableEq

/-- A row of the `offers` table (`Offer`). -/
structure OfferRow where
  id : Nat
  ownerId : Nat
  title : String
  image : Option String
  description : String
  deriving Repr, DecidableEq

/-- A row of the `offer_details` table (`OfferDetail`).  `price` is a
`DecimalField(max_digits=10, decimal_places=2)`, modelled as `Rat`;
`offer_type` is a `CharField` constrained to basic/standard/premium by
validation. -/
structure OfferDetailRow where
  id : Nat
  offerId : Nat
  title : String
  revisions : Int
  deliveryTimeInDays : Int
  price : Rat
  features : List String
  offerType : String
  deriving Repr, DecidableEq

/-- A row of the orders table (`Order`).  `offerDetailId` is the nullable
`offer_detail` foreign key (`on_delete=PROTECT, null=True`); the remaining
commercial fields are the snapshot copied from the `OfferDetail` at
creation time.  `status` is a `CharField` with choices
in_progress/completed/cancelled. -/
structure OrderRow where
  id : Nat
  customerUserId : Nat
  businessUserId : Nat
  offerDetailId : Option Nat
  title : String
  revisions : Int
  deliveryTimeInDays : Int
  price : Rat
  features : List String
  offerType : String
  status : String
  deriving Repr, DecidableEq

/-- A row of the reviews table (`Review`). -/
structure ReviewRow where
  id : Nat
  businessUserId : Nat
  reviewerId : Nat
  rating : Int
  description : String
  deriving Repr, DecidableEq

/-- The backing store: one list per table. -/
structure Store where
  users : List UserRow
  profiles : List ProfileRow
  offers : List OfferRow
  offerDetails : List OfferDetailRow
  orders : List OrderRow
  reviews : List ReviewRow
  deriving Repr, DecidableEq

/-- Error taxonomy of the API layer: DRF `ValidationError` (400),
`PermissionDenied` (403), `NotFound` (404), Django `ProtectedError`
(raised by `on_delete=PROTECT`), `IntegrityError` (raised by the
database when a unique constraint is violated), and `internalError` for
an unhandled Python exception escaping the view (HTTP 500). -/
inductive ApiError where
  | validationError (detail : String)
  | permissionDenied (detail : String)
  | notFound (detail : String)
  | protectedError (detail : String)
  | integrityError (detail : String)
  | internalError (detail : String)
  deriving Repr, DecidableEq

/-! ## Shared lookups -/

/-- `User.objects.get(id=uid)`, as an `Option`. -/
def findUser (s : Store) (uid : Nat) : Option UserRow :=
  s.users.find? (fun u => u.id == uid)

/-- `Profile.objects.get(user_id=uid)`, as an `Option`. -/
def findProfile (s : Store) (uid : Nat) : Option ProfileRow :=
  s.profiles.find? (fun p => p.userId == uid)

/-- `getattr(getattr(user, "profile", None), "type", "")`: the profile's
`type`, or `""` when the user has no profile row. -/
def profileTypeOf (s : Store) (uid : Nat) : String :=
  match findProfile s uid with
  | some p => p.type
  | none => ""

/-- `Offer.objects.get(id=oid)`, as an `Option`. -/
def findOffer (s : Store) (oid : Nat) : Option OfferRow :=
  s.offers.find? (fun o => o.id == oid)

/-- `OfferDetail.objects.get(id=odid)`, as an `Option`. -/
def findOfferDetail (s : Store) (odid : Nat) : Option OfferDetailRow :=
  s.offerDetails.find? (fun d => d.id == odid)

/-- `Order.objects.get(id=oid)`, as an `Option`. -/
def findOrder (s : Store) (oid : Nat) : Option OrderRow :=
  s.orders.find? (fun o => o.id == oid)

/-- `instance.details.all()`: the detail rows belonging to an offer. -/
def detailsOf (s : Store) (oid : Nat) : List OfferDetailRow :=
  s.offerDetails.filter (fun d => d.offerId == oid)

/-- Auto-increment primary keys: one more than the largest id in use. -/
def freshId (ids : List Nat) : Nat := ids.foldr max 0 + 1

def freshOfferId (s : Store) : Nat := freshId (s.offers.map (·.id))

def freshDetailId (s : Store) : Nat := freshId (s.offerDetails.map (·.id))

def freshOrderId (s : Store) : Nat := freshId (s.orders.map (·.id))

def freshReviewId (s : Store) : Nat := freshId (s.reviews.map (·.id))

/-- Referential integrity of `OfferDetail.offer` (enforced by the database
schema): every detail row points at an existing offer row. -/
def DetailFK (s : Store) : Prop :=
  ∀ d ∈ s.offerDetails, ∃ o ∈ s.offers, o.id = d.offerId

/-! ## Offer creation (`offers/api/serializers.py`) -/

/-- `OfferDetail.OfferType.choices` values. -/
def offerTypeChoices : List String := ["basic", "standard", "premium"]

/-- Payload of one entry of `details` in POST /offers/, after JSON
deserialisation (`OfferDetailSerializer` fields).  `features` being a
list of strings is guaranteed here by the type; the runtime check
`_ensure_features_is_str_list` is therefore not re-modelled. -/
structure DetailPayload where
  title : String
  revisions : Int
  deliveryTimeInDays : Int
  price : Rat
  features : List String
  offerType : String
  deriving Repr, DecidableEq

/-- Payload of POST /offers/ (`OfferSerializer` fields; `id` read-only). -/
structure OfferPayload where
  title : String
  image : Option String
  description : String
  details : List DetailPayload
  deriving Repr, DecidableEq

/-- `OfferDetailSerializer.validate`: numeric lower bounds via
`_validate_non_negative` (price ≥ 0, delivery_time_in_days ≥ 1,
revisions ≥ 0). -/
def validateDetail (d : DetailPayload) : Except ApiError DetailPayload :=
  if d.price < 0 then
    Except.error (ApiError.validationError "price: Must be >=.")
  else if d.deliveryTimeInDays < 1 then
    Except.error (ApiError.validationError "delivery_time_in_days: Must be >= 1.")
  else if d.revisions < 0 then
    Except.error (ApiError.validationError "revisions: Must be >=.")
  else Except.ok d

/-- The nested `OfferDetailSerializer(many=True)` validating each entry. -/
def validateEach : List DetailPayload → Except ApiError (List DetailPayload)
  | [] => Except.ok []
  | d :: ds =>
    match validateDetail d with
    | Except.error e => Except.error e
    | Except.ok d1 =>
      match validateEach ds with
      | Except.error e => Except.error e
      | Except.ok ds1 => Except.ok (d1 :: ds1)

/-- `OfferSerializer.validate_details`: exactly three details, each
`offer_type` among the choices, and no duplicated `offer_type`. -/
def validateDetails (value : List DetailPayload) : Except ApiError (List DetailPayload) :=
  if value.length ≠ 3 then
    Except.error (ApiError.validationError "An offer must contain exactly 3 details.")
  else if (value.map (·.offerType)).any (fun t => !(offerTypeChoices.contains t)) then
    Except.error (ApiError.validationError "offer_type must be one of: basic, standard, premium.")
  else if !((value.map (·.offerType)).dedup.length == (value.map (·.offerType)).length) then
    Except.error (ApiError.validationError "Each detail must have a unique offer_type.")
  else Except.ok value

/-- Serializer validation pipeline for POST /offers/ (nested field
validation, then `validate_details`). -/
def offerRunValidation (p : OfferPayload) : Except ApiError (List DetailPayload) :=
  match validateEach p.details with
  | Except.error e => Except.error e
  | Except.ok ds => validateDetails ds

/-- `OfferSerializer.create` (wrapped in `transaction.atomic`): create the
Offer row (owner = request.user) then one OfferDetail row per entry;
failure leaves the store untouched. -/
def offerCreate (s : Store) (uid : Nat) (p : OfferPayload) : Store × Except ApiError Nat :=
  match offerRunValidation p with
  | Except.error e => (s, Except.error e)
  | Except.ok ds =>
    let oid := freshOfferId s
    let base := freshDetailId s
    let newDetails := ds.enum.map (fun id =>
      { id := base + id.1, offerId := oid, title := id.2.title,
        revisions := id.2.revisions, deliveryTimeInDays := id.2.deliveryTimeInDays,
        price := id.2.price, features := id.2.features,
        offerType := id.2.offerType : OfferDetailRow })
    ({ s with
        offers := s.offers ++
          [{ id := oid, ownerId := uid, title := p.title, image := p.image,
             description := p.description }],
        offerDetails := s.offerDetails ++ newDetails },
      Except.ok oid)

/-- The tier well-formedness the spec demands of a `details` payload:
one entry per tier, i.e. the listed offer_types are a permutation of
basic/standard/premium. -/
def ExactlyOnePerTier (ds : List DetailPayload) : Prop :=
  (ds.map (·.offerType)).Perm offerTypeChoices

/-- All per-detail numeric bounds hold. -/
def DetailBoundsOk (ds : List DetailPayload) : Prop :=
  ∀ d ∈ ds, 0 ≤ d.price ∧ 1 ≤ d.deliveryTimeInDays ∧ 0 ≤ d.revisions

/-! ## Order creation (`orders/api/serializers.py`, `orders/api/permissions.py`) -/

/-- `IsCustomerUser.has_permission` (minus the authentication guard, which
is the caller's `uid` being present at all). -/
def isCustomerUser (s : Store) (uid : Nat) : Bool :=
  profileTypeOf s uid == "customer"

/-- POST /orders/: the `IsCustomerUser` gate, then
`OrderCreateSerializer.validate_offer_detail_id` / `validate` / `create`.
The serializer snapshots title/revisions/delivery/price/features/offer_type
from the resolved `OfferDetail` and stores status `in_progress`.  The
`integrityError` branch is unreachable under `DetailFK`. -/
def ordersCreate (s : Store) (uid : Nat) (offerDetailId : Nat) :
    Store × Except ApiError OrderRow :=
  if !(isCustomerUser s uid) then
    (s, Except.error (ApiError.permissionDenied
      "Only users with type 'customer' can create orders."))
  else
    match findOfferDetail s offerDetailId with
    | none => (s, Except.error (ApiError.validationError "OfferDetail not found."))
    | some od =>
      match findOffer s od.offerId with
      | none => (s, Except.error (ApiError.integrityError "OfferDetail.offer is dangling."))
      | some off =>
        if uid == off.ownerId then
          (s, Except.error (ApiError.permissionDenied "You cannot order your own offer."))
        else
          let o : OrderRow :=
            { id := freshOrderId s, customerUserId := uid, businessUserId := off.ownerId,
              offerDetailId := some od.id, title := od.title, revisions := od.revisions,
              deliveryTimeInDays := od.deliveryTimeInDays, price := od.price,
              features := od.features, offerType := od.offerType,
              status := "in_progress" }
          ({ s with orders := s.orders ++ [o] }, Except.ok o)

/-! ## Offer PATCH (`OfferPatchSerializer` in `offers/api/serializers.py`) -/

/-- Payload of one entry of `details` in PATCH /offers/{id}/
(`OfferDetailPartialSerializer`): `offer_type` identifies the detail,
every other field is optional. -/
structure DetailPatchPayload where
  id? : Option Nat
  offerType : String
  title? : Option String
  revisions? : Option Int
  deliveryTimeInDays? : Option Int
  price? : Option Rat
  features? : Option (List String)
  deriving Repr, DecidableEq

/-- Payload of PATCH /offers/{id}/ (`OfferPatchSerializer` fields). -/
structure OfferPatchPayload where
  title? : Option String
  image? : Option (Option String)
  description? : Option String
  details? : Option (List DetailPatchPayload)
  deriving Repr, DecidableEq

/-- Field validation of `OfferDetailPartialSerializer`: `offer_type` must
be a valid choice, the optional numeric fields respect the same bounds
as creation. -/
def validateDetailPatch (p : DetailPatchPayload) : Except ApiError DetailPatchPayload :=
  if !(offerTypeChoices.contains p.offerType) then
    Except.error (ApiError.validationError "offer_type: not a valid choice.")
  else if (p.revisions?.getD 0) < 0 then
    Except.error (ApiError.validationError "revisions: Must be >= 0.")
  else if (p.deliveryTimeInDays?.getD 1) < 1 then
    Except.error (ApiError.validationError "delivery_time_in_days: Must be >= 1.")
  else if (p.price?.getD 0) < 0 then
    Except.error (ApiError.validationError "price: Must be >= 0.")
  else Except.ok p

/-- The nested `OfferDetailPartialSerializer(many=True)` validating each
entry of a PATCH `details` list. -/
def validateEachPatch : List DetailPatchPayload → Except ApiError (List DetailPatchPayload)
  | [] => Except.ok []
  | p :: ps =>
    match validateDetailPatch p with
    | Except.error e => Except.error e
    | Except.ok p1 =>
      match validateEachPatch ps with
      | Except.error e => Except.error e
      | Except.ok ps1 => Except.ok (p1 :: ps1)

/-- `OfferPatchSerializer._update_offer_fields`: overwrite only the
offer-level fields present in the payload. -/
def updateOfferFields (o : OfferRow) (p : OfferPatchPayload) : OfferRow :=
  let o1 := match p.title? with | some t => { o with title := t } | none => o
  let o2 := match p.image? with | some i => { o1 with image := i } | none => o1
  match p.description? with | some d => { o2 with description := d } | none => o2

/-- `OfferPatchSerializer._require_detail_for_type`: resolve the detail of
this offer carrying the given `offer_type` (unique by the
`unique_together` constraint), else `ValidationError`. -/
def requireDetailForType (s : Store) (offerId : Nat) (t : String) :
    Except ApiError OfferDetailRow :=
  match s.offerDetails.find? (fun d => d.offerId == offerId && d.offerType == t) with
  | some d => Except.ok d
  | none => Except.error (ApiError.validationError
      "Detail with this offer_type does not exist for this offer.")

/-- `OfferPatchSerializer._apply_detail_patch`: optional `id` must match
the resolved detail, then only the supplied fields are overwritten
(`offer_type` itself is never changed). -/
def applyDetailPatch (detail : OfferDetailRow) (payload : DetailPatchPayload) :
    Except ApiError OfferDetailRow :=
  if payload.id?.any (fun i => i != detail.id) then
    Except.error (ApiError.validationError "Detail id mismatch for offer_type.")
  else
    let d1 := match payload.title? with | some t => { detail with title := t } | none => detail
    let d2 := match payload.revisions? with | some r => { d1 with revisions := r } | none => d1
    let d3 := match payload.deliveryTimeInDays? with
      | some v => { d2 with deliveryTimeInDays := v } | none => d2
    let d4 := match payload.price? with | some v => { d3 with price := v } | none => d3
    Except.ok (match payload.features? with
               | some f => { d4 with features := f }
               | none => d4)

/-- `detail.save(update_fields=...)`: replace the row with the given id. -/
def saveDetailRow (l : List OfferDetailRow) (d : OfferDetailRow) : List OfferDetailRow :=
  l.map (fun x => if x.id == d.id then d else x)

/-- `OfferPatchSerializer._apply_details_updates`: each payload needs a
truthy `offer_type`, its detail must exist on this offer, then the patch
is applied and saved. -/
def applyDetailsUpdates (s : Store) (offerId : Nat) :
    List DetailPatchPayload → Except ApiError Store
  | [] => Except.ok s
  | payload :: rest =>
    if payload.offerType == "" then
      Except.error (ApiError.validationError "Each detail must include offer_type.")
    else
      match requireDetailForType s offerId payload.offerType with
      | Except.error e => Except.error e
      | Except.ok detail =>
        match applyDetailPatch detail payload with
        | Except.error e => Except.error e
        | Except.ok d1 =>
          applyDetailsUpdates
            { s with offerDetails := saveDetailRow s.offerDetails d1 } offerId rest

/-- PATCH /offers/{id}/ after the owner permission check:
serializer field validation, then `OfferPatchSerializer.update` under
`transaction.atomic` (any error rolls the store back). -/
def offerPatchUpdate (s : Store) (oid : Nat) (p : OfferPatchPayload) :
    Store × Except ApiError Unit :=
  match findOffer s oid with
  | none => (s, Except.error (ApiError.notFound "Not found."))
  | some _ =>
    match (match p.details? with
           | none => Except.ok []
           | some dps => validateEachPatch dps) with
    | Except.error e => (s, Except.error e)
    | Except.ok _ =>
      let s1 := { s with offers := s.offers.map (fun x =>
        if x.id == oid then updateOfferFields x p else x) }
      match p.details? with
      | none => (s1, Except.ok ())
      | some dps =>
        if dps.isEmpty then (s1, Except.ok ())
        else
          match applyDetailsUpdates s1 oid dps with
          | Except.error e => (s, Except.error e)
          | Except.ok s2 => (s2, Except.ok ())

/-! ## Review creation (`reviews/api/serializers.py`, `reviews/models.py`) -/

/-- Payload of POST /reviews/ (`ReviewCreateSerializer` fields). -/
structure ReviewPayload where
  businessUser : Nat
  rating : Int
  description : String
  deriving Repr, DecidableEq

/-- The database insert for `Review`, enforcing the
`unique_review_per_business_and_reviewer` `UniqueConstraint` of
`Review.Meta` regardless of any application-level pre-check. -/
def dbInsertReview (s : Store) (r : ReviewRow) : Except ApiError Store :=
  if s.reviews.any (fun x =>
      x.businessUserId == r.businessUserId && x.reviewerId == r.reviewerId) then
    Except.error (ApiError.integrityError "unique_review_per_business_and_reviewer")
  else Except.ok { s with reviews := s.reviews ++ [r] }

/-- POST /reviews/ at serializer level:
`validate_business_user` (target exists and has a business profile),
the `rating` field bounds (1..5), `validate` (no self-review, no existing
review for the pair), then `create` going through the database insert. -/
def reviewCreate (s : Store) (uid : Nat) (p : ReviewPayload) :
    Store × Except ApiError ReviewRow :=
  match findUser s p.businessUser with
  | none => (s, Except.error (ApiError.validationError "Business user not found."))
  | some target =>
    if profileTypeOf s target.id != "business" then
      (s, Except.error (ApiError.validationError "Target user is not a business."))
    else if p.rating < 1 || 5 < p.rating then
      (s, Except.error (ApiError.validationError "rating: out of range."))
    else if target.id == uid then
      (s, Except.error (ApiError.validationError "You cannot review yourself."))
    else if s.reviews.any (fun x => x.businessUserId == target.id && x.reviewerId == uid) then
      (s, Except.error (ApiError.validationError
        "You have already reviewed this business user."))
    else
      let r : ReviewRow :=
        { id := freshReviewId s, businessUserId := target.id, reviewerId := uid,
          rating := p.rating, description := p.description }
      match dbInsertReview s r with
      | Except.error e => (s, Except.error e)
      | Except.ok s1 => (s1, Except.ok r)

/-- At most one review per (business_user, reviewer) pair. -/
def ReviewUniqueInv (s : Store) : Prop :=
  s.reviews.Pairwise (fun a b =>
    ¬(a.businessUserId = b.businessUserId ∧ a.reviewerId = b.reviewerId))

/-! ## Offer list filtering (`OfferListCreateAPIView._apply_filters` in
`offers/api/views.py`) -/

/-- Value of a character as a Unicode decimal digit (category Nd), the
class `int()` and `Decimal()` accept.  Modelled subset of the Unicode
tables: ASCII `0-9` and the Arabic-Indic block `٠-٩` (U+0660–U+0669);
the remaining Nd blocks behave like the Arabic-Indic one. -/
def decDigitVal? (c : Char) : Option Nat :=
  if '0' ≤ c ∧ c ≤ '9' then some (c.toNat - 48)
  else if '٠' ≤ c ∧ c ≤ '٩' then some (c.toNat - 1632)
  else none

/-- The character is a Unicode decimal digit (Nd). -/
def isNdDigit (c : Char) : Bool := (decDigitVal? c).isSome

/-- Python's per-character `isdigit` property: every Nd decimal digit,
plus digit-property characters outside Nd such as the superscripts
`¹ ² ³` (U+00B9, U+00B2, U+00B3), which `isdigit()` accepts although
`int()` and `Decimal()` reject them.  Modelled subset: the remaining
digit-but-not-decimal characters behave like the superscripts. -/
def pyIsDigitChar (c : Char) : Bool :=
  isNdDigit c || c == '¹' || c == '²' || c == '³'

/-- Python `str.isdigit()`: nonempty and every character has the digit
property. -/
def pyIsDigit (s : String) : Bool :=
  !s.toList.isEmpty && s.toList.all pyIsDigitChar

/-- Base-10 value of a run of Nd digits. -/
def ndVal (l : List Char) : Nat :=
  l.foldl (fun n c => 10 * n + (decDigitVal? c).getD 0) 0

/-- Python `int(s)` at the call sites guarded by `s.isdigit()` (so `s` is
nonempty and all digit-property characters): succeeds with the base-10
value iff every character is an Nd decimal digit; `none` models the
`ValueError` raised on digit-property characters outside Nd, e.g. `²`. -/
def pyIntDigits? (s : String) : Option Nat :=
  if s.toList.all isNdDigit then some (ndVal s.toList) else none

/-- Message of the unhandled `ValueError` escaping the view as a 500. -/
def intCrashMsg : String := "ValueError: invalid literal for int() with base 10"

/-- The value domain of the Python `Decimal` constructor: finite values,
`NaN` (quiet or signalling), and signed infinity. -/
inductive PyDec where
  | fin (q : Rat)
  | nan
  | inf (neg : Bool)
  deriving Repr, DecidableEq

/-- ASCII whitespace stripped by the `Decimal` constructor. -/
def isPySpace (c : Char) : Bool :=
  c == ' ' || c == '\t' || c == '\n' || c == '\x0d' || c == '\x0b' || c == '\x0c'

/-- Strip leading and trailing whitespace from a character list. -/
def stripPySpace (l : List Char) : List Char :=
  ((l.dropWhile isPySpace).reverse.dropWhile isPySpace).reverse

/-- Exponent part of a decimal numeric string: empty (exponent 0) or
`(e|E) [sign] digits`. -/
def parseExp : List Char → Option Int
  | [] => some 0
  | c :: rest =>
    if c == 'e' || c == 'E' then
      match rest with
      | '+' :: ds => if !ds.isEmpty && ds.all isNdDigit then some (ndVal ds : Int) else none
      | '-' :: ds => if !ds.isEmpty && ds.all isNdDigit then some (-(ndVal ds : Int)) else none
      | ds => if !ds.isEmpty && ds.all isNdDigit then some (ndVal ds : Int) else none
    else none

/-- Finite decimal value `[-] intPart.fracPart * 10^exp`. -/
def decimalFin (intPart fracPart : List Char) (exp : Int) (neg : Bool) : PyDec :=
  let base : Rat := (ndVal intPart : Rat) + (ndVal fracPart : Rat) / ((10 : Rat) ^ fracPart.length)
  let v : Rat := base * (10 : Rat) ^ exp
  PyDec.fin (if neg then -v else v)

/-- Unsigned part of the decimal numeric-string grammar:
`Infinity`/`Inf` (case-insensitive), `[s]NaN [digits]`, or
`digits [. digits] [exponent]` / `. digits [exponent]`. -/
def decimalCore (l : List Char) (neg : Bool) : Option PyDec :=
  let low := l.map Char.toLower
  if low == "inf".toList || low == "infinity".toList then some (PyDec.inf neg)
  else if (low.take 3 == "nan".toList && (low.drop 3).all isNdDigit)
       || (low.take 4 == "snan".toList && (low.drop 4).all isNdDigit) then some PyDec.nan
  else
    let intPart := l.takeWhile isNdDigit
    let rest := l.dropWhile isNdDigit
    match rest with
    | '.' :: rest2 =>
      let fracPart := rest2.takeWhile isNdDigit
      let rest3 := rest2.dropWhile isNdDigit
      if intPart.isEmpty && fracPart.isEmpty then none
      else (parseExp rest3).map (fun e => decimalFin intPart fracPart e neg)
    | _ =>
      if intPart.isEmpty then none
      else (parseExp rest).map (fun e => decimalFin intPart [] e neg)

/-- The Python `Decimal(str)` constructor: leading/trailing whitespace
and underscores throughout are removed, then `[sign] numeric-value` is
parsed; `none` models `InvalidOperation` (which `_apply_filters`
catches). -/
def decimalParse (s : String) : Option PyDec :=
  match (stripPySpace s.toList).filter (fun c => c != '_') with
  | '+' :: rest => decimalCore rest false
  | '-' :: rest => decimalCore rest true
  | l => decimalCore l false

/-- The `_min_price` annotation `Min("details__price")`: SQL `MIN`, `NULL`
(`none`) when the offer has no details. -/
def minPriceAgg (s : Store) (o : OfferRow) : Option Rat :=
  match (detailsOf s o.id).map (·.price) with
  | [] => none
  | p :: ps => some (ps.foldl min p)

/-- The `_min_delivery` annotation `Min("details__delivery_time_in_days")`. -/
def minDeliveryAgg (s : Store) (o : OfferRow) : Option Int :=
  match (detailsOf s o.id).map (·.deliveryTimeInDays) with
  | [] => none
  | p :: ps => some (ps.foldl min p)

/-- Query parameters of GET /offers/ used by `_apply_filters` (raw strings,
`none` when absent). -/
structure OfferListParams where
  creatorId : Option String
  minPrice : Option String
  maxDeliveryTime : Option String
  search : Option String
  deriving Repr, DecidableEq

/-- `creator_id` filter: `isdigit()` guard, then `int(creator_id)` —
which raises an unhandled `ValueError` (500) on digit-property
characters outside Nd, e.g. `²` — then exact owner match. -/
def filterCreator (qs : List OfferRow) : Option String → Except ApiError (List OfferRow)
  | none => Except.ok qs
  | some c =>
    if pyIsDigit c then
      match pyIntDigits? c with
      | none => Except.error (ApiError.internalError intCrashMsg)
      | some cid => Except.ok (qs.filter (fun o => o.ownerId == cid))
    else Except.error (ApiError.validationError "creator_id: Must be an integer.")

/-- SQL comparison `_min_price >= x` of the annotated minimum against the
parsed `Decimal` parameter: a `NULL` (`none`) annotation never matches; a
finite parameter compares numerically (backend-independent); following
numeric ordering, a `NaN` or `+Infinity` parameter is never satisfied and
`-Infinity` always is.  The theorems below rely only on the finite case. -/
def minPriceGE (ann : Option Rat) (x : PyDec) : Bool :=
  match ann, x with
  | none, _ => false
  | some p, PyDec.fin q => decide (q ≤ p)
  | some _, PyDec.nan => false
  | some _, PyDec.inf neg => neg

/-- `min_price` filter: `Decimal(min_price)` with `InvalidOperation`
caught as `ValidationError`, then SQL `_min_price >= mp`. -/
def filterMinPrice (s : Store) (qs : List OfferRow) :
    Option String → Except ApiError (List OfferRow)
  | none => Except.ok qs
  | some mp =>
    match decimalParse mp with
    | none => Except.error (ApiError.validationError "min_price: Must be a number.")
    | some x => Except.ok (qs.filter (fun o => minPriceGE (minPriceAgg s o) x))

/-- `max_delivery_time` filter: `isdigit()` guard (failure →
`ValidationError`), then `int(max_delivery)` — an unhandled `ValueError`
(500) on digit-property characters outside Nd — then SQL
`_min_delivery <= y`. -/
def filterMaxDelivery (s : Store) (qs : List OfferRow) :
    Option String → Except ApiError (List OfferRow)
  | none => Except.ok qs
  | some md =>
    if pyIsDigit md then
      match pyIntDigits? md with
      | none => Except.error (ApiError.internalError intCrashMsg)
      | some y => Except.ok (qs.filter (fun o =>
          match minDeliveryAgg s o with
          | some t => decide (t ≤ (y : Int))
          | none => false))
    else Except.error (ApiError.validationError "max_delivery_time: Must be an integer.")

/-- `a.isPrefixOfChars b`: char-list prefix test. -/
def charsStartWith : List Char → List Char → Bool
  | [], _ => true
  | _ :: _, [] => false
  | a :: as, b :: bs => a == b && charsStartWith as bs

/-- Substring test on char lists. -/
def charsContain (needle : List Char) : List Char → Bool
  | [] => charsStartWith needle []
  | c :: cs => charsStartWith needle (c :: cs) || charsContain needle cs

/-- Django `icontains`: case-insensitive substring match. -/
def icontains (hay needle : String) : Bool :=
  charsContain needle.toLower.toList hay.toLower.toList

/-- `search` filter (`if search:` — the empty string is falsy and skips
the filter): title OR description `icontains`. -/
def filterSearch (qs : List OfferRow) : Option String → List OfferRow
  | none => qs
  | some q =>
    if q == "" then qs
    else qs.filter (fun o => icontains o.title q || icontains o.description q)

/-- `OfferListCreateAPIView._apply_filters` over the annotated queryset:
creator_id, min_price, max_delivery_time, search, in source order. -/
def applyFilters (s : Store) (params : OfferListParams) :
    Except ApiError (List OfferRow) :=
  match filterCreator s.offers params.creatorId with
  | Except.error e => Except.error e
  | Except.ok q1 =>
    match filterMinPrice s q1 params.minPrice with
    | Except.error e => Except.error e
    | Except.ok q2 =>
      match filterMaxDelivery s q2 params.maxDeliveryTime with
      | Except.error e => Except.error e
      | Except.ok q3 => Except.ok (filterSearch q3 params.search)

/-! ## Order status PATCH (`orders/api/views.py`, `orders/api/permissions.py`) -/

/-- `Order.Status.choices` values. -/
def orderStatusChoices : List String := ["in_progress", "completed", "cancelled"]

/-- `_validate_patch_only_status`: any key other than `status` in the
payload yields a 400 before anything else happens. -/
def validatePatchOnlyStatus (payload : List (String × String)) : Option ApiError :=
  if payload.any (fun kv => kv.1 != "status") then
    some (ApiError.validationError "Only 'status' may be updated. Invalid fields present.")
  else none

/-- `IsOrderBusinessUser.has_object_permission`: authenticated AND
profile type `business` AND the order's `business_user` is the requester. -/
def hasObjectPermissionOrderBusiness (s : Store) (uid : Option Nat) (o : OrderRow) : Bool :=
  match uid with
  | none => false
  | some u => profileTypeOf s u == "business" && o.businessUserId == u

/-- PATCH /orders/{id}/ (`OrderDetailUpdateDeleteAPIView.partial_update`):
key whitelist check, object resolution (404), `IsOrderBusinessUser`
object permission (403), `OrderStatusPatchSerializer` choice validation,
then the status write. -/
def ordersPartialUpdate (s : Store) (uid : Nat) (orderId : Nat)
    (payload : List (String × String)) : Store × Except ApiError OrderRow :=
  match validatePatchOnlyStatus payload with
  | some e => (s, Except.error e)
  | none =>
    match findOrder s orderId with
    | none => (s, Except.error (ApiError.notFound "Not found."))
    | some o =>
      if !(hasObjectPermissionOrderBusiness s (some uid) o) then
        (s, Except.error (ApiError.permissionDenied
          "Only the business user of this order may update its status."))
      else
        match payload.find? (fun kv => kv.1 == "status") with
        | none => (s, Except.ok o)
        | some kv =>
          if !(orderStatusChoices.contains kv.2) then
            (s, Except.error (ApiError.validationError "status: not a valid choice."))
          else
            let o1 := { o with status := kv.2 }
            ({ s with orders := s.orders.map (fun x => if x.id == orderId then o1 else x) },
              Except.ok o1)

/-! ## Offer DELETE (`OfferRetrieveUpdateDestroyAPIView.destroy`,
`offers/api/permissions.py`, `on_delete` declarations in
`offers/models.py` and `orders/models.py`) -/

/-- Message of the Django `ProtectedError`. -/
def protectMsg : String :=
  "Cannot delete instances because they are referenced through protected foreign keys."

/-- DELETE /offers/{id}/: object resolution (404), `IsOfferOwner` (403),
then `instance.delete()` following the declared `on_delete` behaviour:
`OfferDetail.offer` is `CASCADE` so the offer's details are collected for
deletion, and `Order.offer_detail` is `PROTECT` so the whole deletion
fails with `ProtectedError` while any order references a collected
detail. -/
def offerDestroy (s : Store) (uid : Nat) (oid : Nat) : Store × Except ApiError Unit :=
  match findOffer s oid with
  | none => (s, Except.error (ApiError.notFound "Not found."))
  | some off =>
    if off.ownerId != uid then
      (s, Except.error (ApiError.permissionDenied "Only the offer owner can modify this offer."))
    else
      let ds := detailsOf s oid
      if s.orders.any (fun o => ds.any (fun d => o.offerDetailId == some d.id)) then
        (s, Except.error (ApiError.protectedError protectMsg))
      else
        ({ s with
            offers := s.offers.filter (fun x => !(x.id == oid)),
            offerDetails := s.offerDetails.filter (fun d => !(d.offerId == oid)) },
          Except.ok ())

/-! ## Profile PATCH object resolution (`ProfileView.get_object` in
`profiles/api/views.py`) -/

/-- Message raised by `ProfileView.get_object` on a non-owner PATCH. -/
def ownProfileMsg : String := "You are only allowed to update your own profile."

/-- `ProfileView.get_object` on the PATCH branch: the ownership check
(`request.user.id != pk` → `PermissionDenied`) runs before any lookup;
only afterwards the profile row is fetched, lazily created if absent, and
passed through `IsProfileOwner.has_object_permission`. -/
def profileGetObjectPatch (s : Store) (uid : Nat) (pk : Nat) :
    Store × Except ApiError ProfileRow :=
  if uid != pk then
    (s, Except.error (ApiError.permissionDenied ownProfileMsg))
  else
    match findProfile s pk with
    | some p =>
      if p.userId == uid then (s, Except.ok p)
      else (s, Except.error (ApiError.permissionDenied "You may only modify your own profile."))
    | none =>
      let p : ProfileRow := { userId := uid, type := "" }
      ({ s with profiles := s.profiles ++ [p] }, Except.ok p)

/-! ## Order count endpoints (`orders/api/views.py`) -/

/-- `_business_user_or_404`: the user must exist and its profile must have
type `business` — a missing user, a missing profile and a non-business
profile all collapse to the same 404. -/
def businessUserOr404 (s : Store) (businessUserId : Nat) : Option UserRow :=
  match findUser s businessUserId with
  | none => none
  | some u =>
    match findProfile s businessUserId with
    | none => none
    | some p => if p.type == "business" then some u else none

/-- `_count_orders`: orders of the business user with the given status. -/
def countOrders (s : Store) (businessUserId : Nat) (statusValue : String) : Nat :=
  s.orders.countP (fun o => o.businessUserId == businessUserId && o.status == statusValue)

/-- GET /order-count/{business_user_id}/ → `order_count`. -/
def orderCountGet (s : Store) (businessUserId : Nat) : Except ApiError Nat :=
  match businessUserOr404 s businessUserId with
  | none => Except.error (ApiError.notFound "Business user not found.")
  | some u => Except.ok (countOrders s u.id "in_progress")

/-- GET /completed-order-count/{business_user_id}/ → `completed_order_count`. -/
def completedOrderCountGet (s : Store) (businessUserId : Nat) : Except ApiError Nat :=
  match businessUserOr404 s businessUserId with
  | none => Except.error (ApiError.notFound "Business user not found.")
  | some u => Except.ok (countOrders s u.id "completed")

/-! ## Concrete fixtures (used by witnesses and counterexamples) -/

/-- The empty store. -/
def emptyStore : Store := ⟨[], [], [], [], [], []⟩

/-- A well-formed detail payload for a given tier. -/
def goodDetail (t : String) : DetailPayload :=
  { title := "Tier", revisions := 1, deliveryTimeInDays := 3, price := 100,
    features := ["a"], offerType := t }

/-- A valid offer payload: one detail per tier. -/
def goodOfferPayload : OfferPayload :=
  { title := "Offer", image := none, description := "",
    details := [goodDetail "basic", goodDetail "standard", goodDetail "premium"] }

/-- An invalid offer payload: two details share the `basic` tier. -/
def badOfferPayload : OfferPayload :=
  { title := "Offer", image := none, description := "",
    details := [goodDetail "basic", goodDetail "basic", goodDetail "premium"] }

/-- A populated store: business user 1 with offer 10 / detail 100,
customer 2 with an order for detail 100 and a review of user 1,
customer 3 with no activity. -/
def exStore : Store :=
  { users := [⟨1⟩, ⟨2⟩, ⟨3⟩],
    profiles := [⟨1, "business"⟩, ⟨2, "customer"⟩, ⟨3, "customer"⟩],
    offers := [{ id := 10, ownerId := 1, title := "Offer", image := none, description := "d" }],
    offerDetails := [{ id := 100, offerId := 10, title := "Basic", revisions := 1,
                       deliveryTimeInDays := 3, price := 100, features := ["a"],
                       offerType := "basic" }],
    orders := [{ id := 500, customerUserId := 2, businessUserId := 1,
                 offerDetailId := some 100, title := "Basic", revisions := 1,
                 deliveryTimeInDays := 3, price := 100, features := ["a"],
                 offerType := "basic", status := "in_progress" }],
    reviews := [{ id := 900, businessUserId := 1, reviewerId := 2, rating := 5,
                  description := "great" }] }

/-- A store whose only user is the business party of `c7order` but carries
a customer profile. -/
def c7store : Store :=
  { users := [⟨1⟩], profiles := [⟨1, "customer"⟩], offers := [], offerDetails := [],
    orders := [{ id := 42, customerUserId := 2, businessUserId := 1, offerDetailId := none,
                 title := "T", revisions := 0, deliveryTimeInDays := 1, price := 50,
                 features := [], offerType := "basic", status := "in_progress" }],
    reviews := [] }

/-- The order of `c7store`. -/
def c7order : OrderRow :=
  { id := 42, customerUserId := 2, businessUserId := 1, offerDetailId := none,
    title := "T", revisions := 0, deliveryTimeInDays := 1, price := 50,
    features := [], offerType := "basic", status := "in_progress" }

/-! ## Helper lemmas -/

theorem le_foldr_max {l : List Nat} {x : Nat} (hx : x ∈ l) : x ≤ l.foldr max 0 := by
  induction l with
  | nil => cases hx
  | cons a t ih =>
    cases hx with
    | head => exact le_max_left _ _
    | tail _ h => exact le_trans (ih h) (le_max_right _ _)

theorem lt_freshId {l : List Nat} {x : Nat} (hx : x ∈ l) : x < freshId l :=
  Nat.lt_succ_of_le (le_foldr_max hx)

theorem find?_append_of_none {α : Type} {p : α → Bool} {l₁ l₂ : List α}
    (h : l₁.find? p = none) : (l₁ ++ l₂).find? p = l₂.find? p := by
  rw [List.find?_append, h, Option.none_or]

theorem validateDetail_ok {d d1 : DetailPayload}
    (h : validateDetail d = Except.ok d1) : d1 = d := by
  unfold validateDetail at h
  split at h
  · cases h
  · split at h
    · cases h
    · split at h
      · cases h
      · cases h; rfl

theorem validateDetail_error_shape {d : DetailPayload} {e : ApiError}
    (h : validateDetail d = Except.error e) : ∃ m, e = ApiError.validationError m := by
  unfold validateDetail at h
  split at h
  · cases h; exact ⟨_, rfl⟩
  · split at h
    · cases h; exact ⟨_, rfl⟩
    · split at h
      · cases h; exact ⟨_, rfl⟩
      · cases h

theorem validateDetail_ok_of_bounds {d : DetailPayload}
    (h : 0 ≤ d.price ∧ 1 ≤ d.deliveryTimeInDays ∧ 0 ≤ d.revisions) :
    validateDetail d = Except.ok d := by
  obtain ⟨h1, h2, h3⟩ := h
  unfold validateDetail
  rw [if_neg (by exact not_lt.mpr h1), if_neg (by exact not_lt.mpr h2),
    if_neg (by exact not_lt.mpr h3)]

theorem validateEach_ok {l ds : List DetailPayload}
    (h : validateEach l = Except.ok ds) : ds = l := by
  induction l generalizing ds with
  | nil => cases h; rfl
  | cons d t ih =>
    unfold validateEach at h
    cases hd : validateDetail d with
    | error e => rw [hd] at h; cases h
    | ok d1 =>
      rw [hd] at h
      cases ht : validateEach t with
      | error e => rw [ht] at h; cases h
      | ok ds1 =>
        rw [ht] at h
        cases h
        rw [validateDetail_ok hd, ih ht]

theorem validateEach_error_shape {l : List DetailPayload} {e : ApiError}
    (h : validateEach l = Except.error e) : ∃ m, e = ApiError.validationError m := by
  induction l with
  | nil => cases h
  | cons d t ih =>
    unfold validateEach at h
    cases hd : validateDetail d with
    | error e1 =>
      rw [hd] at h; cases h
      exact validateDetail_error_shape hd
    | ok d1 =>
      rw [hd] at h
      cases ht : validateEach t with
      | error e1 => rw [ht] at h; cases h; exact ih ht
      | ok ds1 => rw [ht] at h; cases h

theorem validateEach_ok_of_bounds {l : List DetailPayload}
    (h : DetailBoundsOk l) : validateEach l = Except.ok l := by
  induction l with
  | nil => rfl
  | cons d t ih =>
    unfold validateEach
    rw [validateDetail_ok_of_bounds (h d (List.mem_cons_self d t)),
      ih (fun x hx => h x (List.mem_cons_of_mem d hx))]

theorem offerTypeChoices_nodup : offerTypeChoices.Nodup := by decide

theorem validateDetails_ok_of_perm {l : List DetailPayload}
    (h : (l.map (·.offerType)).Perm offerTypeChoices) :
    validateDetails l = Except.ok l := by
  have hlen : l.length = 3 := by
    have := h.length_eq
    simpa using this
  have hnodup : (l.map (·.offerType)).Nodup :=
    (h.nodup_iff).mpr offerTypeChoices_nodup
  have hany : ((l.map (·.offerType)).any (fun t => !(offerTypeChoices.contains t))) = false := by
    rw [List.any_eq_false]
    intro t ht
    have hmem : t ∈ offerTypeChoices := h.mem_iff.mp ht
    simp [hmem]
  unfold validateDetails
  rw [if_neg (by simp [hlen]), if_neg (by rw [hany]; simp),
    if_neg (by simp [List.dedup_eq_self.mpr hnodup])]

theorem validateDetails_ok_perm {l ds : List DetailPayload}
    (h : validateDetails l = Except.ok ds) :
    ds = l ∧ (l.map (·.offerType)).Perm offerTypeChoices := by
  unfold validateDetails at h
  split at h
  · cases h
  · rename_i hlen
    split at h
    · cases h
    · rename_i hall
      split at h
      · cases h
      · rename_i hdedup
        cases h
        refine ⟨rfl, ?_⟩
        have hlen3 : (l.map (·.offerType)).length = 3 := by
          simp [not_ne_iff.mp hlen]
        have hall2 : ((l.map (·.offerType)).any (fun t => !(offerTypeChoices.contains t))) = false := by
          cases hq : ((l.map (·.offerType)).any (fun t => !(offerTypeChoices.contains t))) with
          | true => exact absurd hq hall
          | false => rfl
        have hsub : (l.map (·.offerType)) ⊆ offerTypeChoices := by
          intro t ht
          have h2 := List.any_eq_false.mp hall2 t ht
          have hc : offerTypeChoices.contains t = true := by
            cases hc : offerTypeChoices.contains t with
            | true => rfl
            | false => exact absurd (by rw [hc]; rfl) h2
          exact List.mem_of_elem_eq_true hc
        have hnd : (l.map (·.offerType)).Nodup := by
          have hbeq : ((l.map (·.offerType)).dedup.length == (l.map (·.offerType)).length) = true := by
            cases hq : ((l.map (·.offerType)).dedup.length == (l.map (·.offerType)).length) with
            | true => rfl
            | false => exact absurd (by rw [hq]; rfl) hdedup
          have hlendd : (l.map (·.offerType)).dedup.length = (l.map (·.offerType)).length :=
            eq_of_beq hbeq
          have hsubl := List.dedup_sublist (l.map (·.offerType))
          have heq := hsubl.eq_of_length hlendd
          rw [← heq]
          exact List.nodup_dedup _
        exact (List.subperm_of_subset hnd hsub).perm_of_length_le (by rw [hlen3]; decide)

theorem validateDetails_error_shape {l : List DetailPayload} {e : ApiError}
    (h : validateDetails l = Except.error e) : ∃ m, e = ApiError.validationError m := by
  unfold validateDetails at h
  split at h
  · cases h; exact ⟨_, rfl⟩
  · split at h
    · cases h; exact ⟨_, rfl⟩
    · split at h
      · cases h; exact ⟨_, rfl⟩
      · cases h

theorem offerRunValidation_ok {p : OfferPayload} {ds : List DetailPayload}
    (h : offerRunValidation p = Except.ok ds) :
    ds = p.details ∧ ExactlyOnePerTier p.details := by
  unfold offerRunValidation at h
  cases he : validateEach p.details with
  | error e => rw [he] at h; cases h
  | ok ds1 =>
    rw [he] at h
    obtain ⟨hds, hperm⟩ := validateDetails_ok_perm h
    rw [validateEach_ok he] at hds hperm
    exact ⟨hds, hperm⟩

theorem offerRunValidation_error_shape {p : OfferPayload} {e : ApiError}
    (h : offerRunValidation p = Except.error e) : ∃ m, e = ApiError.validationError m := by
  unfold offerRunValidation at h
  cases he : validateEach p.details with
  | error e1 => rw [he] at h; cases h; exact validateEach_error_shape he
  | ok ds1 => rw [he] at h; exact validateDetails_error_shape h

theorem offerRunValidation_ok_of {p : OfferPayload}
    (hb : DetailBoundsOk p.details) (hp : ExactlyOnePerTier p.details) :
    offerRunValidation p = Except.ok p.details := by
  unfold offerRunValidation
  rw [validateEach_ok_of_bounds hb]
  exact validateDetails_ok_of_perm hp

theorem offerCreate_error_eq {s : Store} {uid : Nat} {p : OfferPayload} {e : ApiError}
    (hrun : offerRunValidation p = Except.error e) :
    offerCreate s uid p = (s, Except.error e) := by
  simp only [offerCreate, hrun]

theorem offerCreate_ok_eq {s : Store} {uid : Nat} {p : OfferPayload} {ds : List DetailPayload}
    (hrun : offerRunValidation p = Except.ok ds) :
    offerCreate s uid p =
      ({ s with
          offers := s.offers ++
            [{ id := freshOfferId s, ownerId := uid, title := p.title, image := p.image,
               description := p.description }],
          offerDetails := s.offerDetails ++ ds.enum.map (fun id =>
            { id := freshDetailId s + id.1, offerId := freshOfferId s, title := id.2.title,
              revisions := id.2.revisions, deliveryTimeInDays := id.2.deliveryTimeInDays,
              price := id.2.price, features := id.2.features,
              offerType := id.2.offerType : OfferDetailRow }) },
        Except.ok (freshOfferId s)) := by
  simp only [offerCreate, hrun]

/-- C1: Offer creation with a details list that does not contain exactly
one entry per tier always fails with `ValidationError` and persists zero rows;
for every valid payload the Offer (owner = principal) and its three
OfferDetail rows are persisted as one unit of work, and the stored Offer has
exactly 3 details whose tiers are exactly {basic, standard, premium}. -/
theorem offer_create_exactly_three_tiers (s : Store) (uid : Nat) (p : OfferPayload)
    (hfk : DetailFK s) :
    (¬ ExactlyOnePerTier p.details →
      ∃ m, offerCreate s uid p = (s, Except.error (ApiError.validationError m)))
  ∧ (DetailBoundsOk p.details → ExactlyOnePerTier p.details →
      ∃ s2 oid, offerCreate s uid p = (s2, Except.ok oid))
  ∧ (∀ s2 oid, offerCreate s uid p = (s2, Except.ok oid) →
      ∃ orow newDs,
        s2 = { s with offers := s.offers ++ [orow], offerDetails := s.offerDetails ++ newDs }
        ∧ orow.id = oid ∧ orow.ownerId = uid
        ∧ detailsOf s2 oid = newDs
        ∧ newDs.length = 3
        ∧ (newDs.map (·.offerType)).Perm offerTypeChoices) := by
  refine ⟨?_, ?_, ?_⟩
  · intro hnp
    cases hrun : offerRunValidation p with
    | error e =>
      obtain ⟨m, hm⟩ := offerRunValidation_error_shape hrun
      subst hm
      exact ⟨m, offerCreate_error_eq hrun⟩
    | ok ds => exact absurd (offerRunValidation_ok hrun).2 hnp
  · intro hb hp
    exact ⟨_, _, offerCreate_ok_eq (offerRunValidation_ok_of hb hp)⟩
  · intro s2 oid h
    cases hrun : offerRunValidation p with
    | error e =>
      rw [offerCreate_error_eq hrun] at h
      exact absurd (congrArg Prod.snd h) (by simp)
    | ok ds =>
      obtain ⟨hds, hperm⟩ := offerRunValidation_ok hrun
      subst hds
      rw [offerCreate_ok_eq hrun] at h
      have hs2 := congrArg Prod.fst h
      have hoidx := congrArg Prod.snd h
      simp only at hs2 hoidx
      have hoid : freshOfferId s = oid := by
        injection hoidx
      subst hoid
      subst hs2
      have hlen3 : p.details.length = 3 := by
        have := hperm.length_eq
        simpa using this
      refine ⟨_, _, rfl, rfl, rfl, ?_, ?_, ?_⟩
      · show (s.offerDetails ++ _).filter _ = _
        rw [List.filter_append]
        have hold : s.offerDetails.filter (fun d => d.offerId == freshOfferId s) = [] := by
          rw [List.filter_eq_nil_iff]
          intro d hd
          obtain ⟨o, ho, hoe⟩ := hfk d hd
          have hlt : o.id < freshOfferId s :=
            lt_freshId (List.mem_map_of_mem (·.id) ho)
          simp only [beq_iff_eq]
          omega
        have hnew : (p.details.enum.map (fun id =>
            { id := freshDetailId s + id.1, offerId := freshOfferId s, title := id.2.title,
              revisions := id.2.revisions, deliveryTimeInDays := id.2.deliveryTimeInDays,
              price := id.2.price, features := id.2.features,
              offerType := id.2.offerType : OfferDetailRow })).filter
              (fun d => d.offerId == freshOfferId s) = p.details.enum.map (fun id =>
            { id := freshDetailId s + id.1, offerId := freshOfferId s, title := id.2.title,
              revisions := id.2.revisions, deliveryTimeInDays := id.2.deliveryTimeInDays,
              price := id.2.price, features := id.2.features,
              offerType := id.2.offerType : OfferDetailRow }) := by
          rw [List.filter_eq_self]
          intro a ha
          obtain ⟨x, hx, rfl⟩ := List.mem_map.mp ha
          simp
        rw [hold, hnew, List.nil_append]
      · rw [List.length_map]
        show p.details.enum.length = 3
        rw [List.enum_length, hlen3]
      · have hms : (p.details.enum.map (fun id =>
            { id := freshDetailId s + id.1, offerId := freshOfferId s, title := id.2.title,
              revisions := id.2.revisions, deliveryTimeInDays := id.2.deliveryTimeInDays,
              price := id.2.price, features := id.2.features,
              offerType := id.2.offerType : OfferDetailRow })).map (·.offerType)
            = p.details.map (·.offerType) := by
          rw [List.map_map]
          have h2 : (fun x : Nat × DetailPayload => x.2.offerType)
              = (fun d : DetailPayload => d.offerType) ∘ Prod.snd := rfl
          show p.details.enum.map (fun x => x.2.offerType) = _
          rw [h2, ← List.map_map, List.enum_eq_enumFrom, List.enumFrom_map_snd]
        rw [hms]
        exact hperm

/-- Witness for C1 at concrete inputs: the duplicated-tier payload is
rejected with a `ValidationError`, the valid payload is persisted. -/
theorem offer_create_exactly_three_tiers_witness :
    (∃ m, offerCreate exStore 1 badOfferPayload
        = (exStore, Except.error (ApiError.validationError m)))
  ∧ (∃ s2 oid, offerCreate exStore 1 goodOfferPayload = (s2, Except.ok oid)) := by
  constructor
  · exact (offer_create_exactly_three_tiers exStore 1 badOfferPayload
      (by unfold DetailFK; decide)).1 (by unfold ExactlyOnePerTier; decide)
  · exact (offer_create_exactly_three_tiers exStore 1 goodOfferPayload
      (by unfold DetailFK; decide)).2.1 (by unfold DetailBoundsOk; decide)
      (by unfold ExactlyOnePerTier; decide)

theorem ordersCreate_gate {s : Store} {uid odid : Nat}
    (h : isCustomerUser s uid = false) :
    ordersCreate s uid odid = (s, Except.error (ApiError.permissionDenied
      "Only users with type 'customer' can create orders.")) := by
  simp [ordersCreate, h]

theorem ordersCreate_self {s : Store} {uid odid : Nat} {od : OfferDetailRow} {off : OfferRow}
    (hcust : isCustomerUser s uid = true)
    (hod : findOfferDetail s odid = some od)
    (hoff : findOffer s od.offerId = some off)
    (heq : (uid == off.ownerId) = true) :
    ordersCreate s uid odid = (s, Except.error (ApiError.permissionDenied
      "You cannot order your own offer.")) := by
  simp only [ordersCreate, hcust, Bool.not_true, Bool.false_eq_true, if_false, hod, hoff, heq,
    if_true]

theorem ordersCreate_ok_eq {s : Store} {uid odid : Nat} {od : OfferDetailRow} {off : OfferRow}
    (hcust : isCustomerUser s uid = true)
    (hod : findOfferDetail s odid = some od)
    (hoff : findOffer s od.offerId = some off)
    (hne : (uid == off.ownerId) = false) :
    ordersCreate s uid odid =
      ({ s with orders := s.orders ++
          [{ id := freshOrderId s, customerUserId := uid, businessUserId := off.ownerId,
             offerDetailId := some od.id, title := od.title, revisions := od.revisions,
             deliveryTimeInDays := od.deliveryTimeInDays, price := od.price,
             features := od.features, offerType := od.offerType,
             status := "in_progress" }] },
        Except.ok
          { id := freshOrderId s, customerUserId := uid, businessUserId := off.ownerId,
            offerDetailId := some od.id, title := od.title, revisions := od.revisions,
            deliveryTimeInDays := od.deliveryTimeInDays, price := od.price,
            features := od.features, offerType := od.offerType,
            status := "in_progress" }) := by
  simp only [ordersCreate, hcust, Bool.not_true, Bool.false_eq_true, if_false, hod, hoff, hne]

theorem applyDetailsUpdates_orders {oid : Nat} :
    ∀ (l : List DetailPatchPayload) (s s2 : Store),
      applyDetailsUpdates s oid l = Except.ok s2 → s2.orders = s.orders := by
  intro l
  induction l with
  | nil => intro s s2 h; cases h; rfl
  | cons payload rest ih =>
    intro s s2 h
    unfold applyDetailsUpdates at h
    split at h
    · cases h
    · cases hreq : requireDetailForType s oid payload.offerType with
      | error e => simp only [hreq] at h; exact Except.noConfusion h
      | ok detail =>
        simp only [hreq] at h
        cases hap : applyDetailPatch detail payload with
        | error e => simp only [hap] at h; exact Except.noConfusion h
        | ok d1 =>
          simp only [hap] at h
          have h2 := ih _ _ h
          exact h2

theorem offerPatchUpdate_orders (s : Store) (oid : Nat) (p : OfferPatchPayload) :
    (offerPatchUpdate s oid p).1.orders = s.orders := by
  unfold offerPatchUpdate
  cases hfo : findOffer s oid with
  | none => rfl
  | some off =>
    simp only
    split
    · rfl
    · cases hd : p.details? with
      | none => simp only [hd]
      | some dps =>
        simp only [hd]
        split
        · rfl
        · cases hap : applyDetailsUpdates
            { s with offers := s.offers.map (fun x =>
                if x.id == oid then updateOfferFields x p else x) } oid dps with
          | error e => simp only [hap]
          | ok s2 =>
            simp only [hap]
            have h2 := applyDetailsUpdates_orders dps _ s2 hap
            exact h2

/-- C2: An Order snapshots the referenced OfferDetail's fields at the
instant of creation, and an Offer PATCH (which is what mutates
OfferDetails, via `_apply_detail_patch`) never changes any stored Order
row, so the snapshot fields stay as created. -/
theorem order_snapshot_immutable (s : Store) (uid odid : Nat)
    (od : OfferDetailRow) (off : OfferRow)
    (hcust : isCustomerUser s uid = true)
    (hod : findOfferDetail s odid = some od)
    (hoff : findOffer s od.offerId = some off)
    (hne : uid ≠ off.ownerId) :
    (∃ o, ordersCreate s uid odid = ({ s with orders := s.orders ++ [o] }, Except.ok o)
      ∧ o.title = od.title ∧ o.revisions = od.revisions
      ∧ o.deliveryTimeInDays = od.deliveryTimeInDays ∧ o.price = od.price
      ∧ o.features = od.features ∧ o.offerType = od.offerType)
  ∧ (∀ (s3 : Store) (oid2 : Nat) (pp : OfferPatchPayload),
      (offerPatchUpdate s3 oid2 pp).1.orders = s3.orders) := by
  constructor
  · exact ⟨_, ordersCreate_ok_eq hcust hod hoff (beq_eq_false_iff_ne.mpr hne),
      rfl, rfl, rfl, rfl, rfl, rfl⟩
  · intro s3 oid2 pp
    exact offerPatchUpdate_orders s3 oid2 pp

/-- Witness for C2: customer 3 orders detail 100 of business 1's offer in
the populated store; the created order carries the detail's fields. -/
theorem order_snapshot_immutable_witness :
    ∃ o, ordersCreate exStore 3 100 = ({ exStore with orders := exStore.orders ++ [o] }, Except.ok o)
      ∧ o.title = (⟨100, 10, "Basic", 1, 3, 100, ["a"], "basic"⟩ : OfferDetailRow).title
      ∧ o.revisions = (⟨100, 10, "Basic", 1, 3, 100, ["a"], "basic"⟩ : OfferDetailRow).revisions
      ∧ o.deliveryTimeInDays
          = (⟨100, 10, "Basic", 1, 3, 100, ["a"], "basic"⟩ : OfferDetailRow).deliveryTimeInDays
      ∧ o.price = (⟨100, 10, "Basic", 1, 3, 100, ["a"], "basic"⟩ : OfferDetailRow).price
      ∧ o.features = (⟨100, 10, "Basic", 1, 3, 100, ["a"], "basic"⟩ : OfferDetailRow).features
      ∧ o.offerType = (⟨100, 10, "Basic", 1, 3, 100, ["a"], "basic"⟩ : OfferDetailRow).offerType :=
  (order_snapshot_immutable exStore 3 100
    ⟨100, 10, "Basic", 1, 3, 100, ["a"], "basic"⟩
    ⟨10, 1, "Offer", none, "d"⟩ rfl (by decide) (by decide) (by decide)).1

/-- C6: Ordering a detail of one's own offer always fails with a
`PermissionError` and persists nothing; a customer ordering another
business's detail succeeds, with `business_user` derived from the offer's
owner and status `in_progress`. -/
theorem order_create_self_order_forbidden (s : Store) (uid odid : Nat)
    (od : OfferDetailRow) (off : OfferRow)
    (hod : findOfferDetail s odid = some od)
    (hoff : findOffer s od.offerId = some off) :
    (off.ownerId = uid →
      ∃ m, ordersCreate s uid odid = (s, Except.error (ApiError.permissionDenied m)))
  ∧ (isCustomerUser s uid = true → off.ownerId ≠ uid →
      ∃ o, ordersCreate s uid odid = ({ s with orders := s.orders ++ [o] }, Except.ok o)
        ∧ o.businessUserId = off.ownerId ∧ o.customerUserId = uid
        ∧ o.status = "in_progress") := by
  constructor
  · intro howner
    cases hc : isCustomerUser s uid with
    | false => exact ⟨_, ordersCreate_gate hc⟩
    | true =>
      refine ⟨_, ordersCreate_self hc hod hoff ?_⟩
      simp [howner]
  · intro hc hne
    exact ⟨_, ordersCreate_ok_eq hc hod hoff
      (beq_eq_false_iff_ne.mpr (fun h => hne h.symm)), rfl, rfl, rfl⟩

/-- Witness for C6: business 1 cannot order its own detail 100; customer
2 can, and the order's business party is user 1 with status in_progress. -/
theorem order_create_self_order_forbidden_witness :
    (∃ m, ordersCreate exStore 1 100 = (exStore, Except.error (ApiError.permissionDenied m)))
  ∧ (∃ o, ordersCreate exStore 2 100
        = ({ exStore with orders := exStore.orders ++ [o] }, Except.ok o)
      ∧ o.businessUserId = (⟨10, 1, "Offer", none, "d"⟩ : OfferRow).ownerId
      ∧ o.customerUserId = 2 ∧ o.status = "in_progress") := by
  constructor
  · exact (order_create_self_order_forbidden exStore 1 100
      ⟨100, 10, "Basic", 1, 3, 100, ["a"], "basic"⟩
      ⟨10, 1, "Offer", none, "d"⟩ (by decide) (by decide)).1 rfl
  · exact (order_create_self_order_forbidden exStore 2 100
      ⟨100, 10, "Basic", 1, 3, 100, ["a"], "basic"⟩
      ⟨10, 1, "Offer", none, "d"⟩ (by decide) (by decide)).2 rfl (by decide)

/-- C3: A second review Create for a (business, reviewer) pair that
already has a review always fails with `ValidationError` and changes
nothing; independently, the store-level unique constraint preserves the
at-most-one-review-per-pair invariant for every insert, even one that
bypasses the application-level pre-check. -/
theorem review_unique_per_pair (s : Store) (uid : Nat) (p : ReviewPayload) :
    ((∃ x ∈ s.reviews, x.businessUserId = p.businessUser ∧ x.reviewerId = uid) →
      ∃ m, reviewCreate s uid p = (s, Except.error (ApiError.validationError m)))
  ∧ (∀ (r : ReviewRow) (s2 : Store), ReviewUniqueInv s →
      dbInsertReview s r = Except.ok s2 → ReviewUniqueInv s2) := by
  constructor
  · rintro ⟨x, hx, hxb, hxr⟩
    unfold reviewCreate
    cases hfu : findUser s p.businessUser with
    | none => exact ⟨_, rfl⟩
    | some target =>
      have htid : target.id = p.businessUser := by
        have hp := List.find?_some hfu
        exact eq_of_beq hp
      simp only
      split
      · exact ⟨_, rfl⟩
      · split
        · exact ⟨_, rfl⟩
        · split
          · exact ⟨_, rfl⟩
          · split
            · exact ⟨_, rfl⟩
            · rename_i hany
              exfalso
              exact hany (List.any_eq_true.mpr ⟨x, hx, by simp [htid, hxb, hxr]⟩)
  · intro r s2 hinv hins
    unfold dbInsertReview at hins
    split at hins
    · cases hins
    · rename_i hany
      cases hins
      unfold ReviewUniqueInv at hinv ⊢
      rw [List.pairwise_append]
      refine ⟨hinv, List.pairwise_singleton _ _, ?_⟩
      intro a ha b hb
      simp only [List.mem_singleton] at hb
      subst hb
      rintro ⟨h1, h2⟩
      exact hany (List.any_eq_true.mpr ⟨a, ha, by simp [h1, h2]⟩)

/-- Witness for C3: customer 2 already reviewed business 1 in the
populated store, so a second attempt is rejected. -/
theorem review_unique_per_pair_witness :
    ∃ m, reviewCreate exStore 2 ⟨1, 4, "dup"⟩
      = (exStore, Except.error (ApiError.validationError m)) :=
  (review_unique_per_pair exStore 2 ⟨1, 4, "dup"⟩).1
    ⟨⟨900, 1, 2, 5, "great"⟩, by decide, rfl, rfl⟩

theorem filterMinPrice_mem {s : Store} {qs r : List OfferRow} {mp : String} {x : Rat}
    {o : OfferRow} (h : filterMinPrice s qs (some mp) = Except.ok r)
    (hp : decimalParse mp = some (PyDec.fin x)) (ho : o ∈ r) :
    o ∈ qs ∧ ∃ pr, minPriceAgg s o = some pr ∧ x ≤ pr := by
  simp only [filterMinPrice, hp] at h
  cases h
  have hmem := List.mem_filter.mp ho
  refine ⟨hmem.1, ?_⟩
  have hpred := hmem.2
  cases hann : minPriceAgg s o with
  | none =>
    simp only [hann] at hpred
    exact Bool.noConfusion hpred
  | some pr =>
    simp only [hann] at hpred
    exact ⟨pr, rfl, of_decide_eq_true hpred⟩

theorem filterMinPrice_ok_sub {s : Store} {qs r : List OfferRow} {ps : Option String}
    (h : filterMinPrice s qs ps = Except.ok r) : ∀ o ∈ r, o ∈ qs := by
  cases ps with
  | none =>
    simp only [filterMinPrice] at h
    cases h
    exact fun o ho => ho
  | some mp =>
    simp only [filterMinPrice] at h
    cases hp : decimalParse mp with
    | none =>
      simp only [hp] at h
      exact Except.noConfusion h
    | some x =>
      simp only [hp] at h
      cases h
      exact fun o ho => (List.mem_filter.mp ho).1

theorem filterMaxDelivery_mem {s : Store} {qs r : List OfferRow} {md : String} {y : Nat}
    {o : OfferRow} (h : filterMaxDelivery s qs (some md) = Except.ok r)
    (hy : pyIntDigits? md = some y) (ho : o ∈ r) :
    o ∈ qs ∧ ∃ t, minDeliveryAgg s o = some t ∧ t ≤ (y : Int) := by
  simp only [filterMaxDelivery] at h
  by_cases hd : pyIsDigit md = true
  · rw [if_pos hd] at h
    simp only [hy] at h
    cases h
    have hmem := List.mem_filter.mp ho
    refine ⟨hmem.1, ?_⟩
    have hpred := hmem.2
    cases hann : minDeliveryAgg s o with
    | none =>
      simp only [hann] at hpred
      exact Bool.noConfusion hpred
    | some t =>
      simp only [hann] at hpred
      exact ⟨t, rfl, of_decide_eq_true hpred⟩
  · rw [if_neg hd] at h
    exact Except.noConfusion h

theorem filterMaxDelivery_ok_sub {s : Store} {qs r : List OfferRow} {ps : Option String}
    (h : filterMaxDelivery s qs ps = Except.ok r) : ∀ o ∈ r, o ∈ qs := by
  cases ps with
  | none =>
    simp only [filterMaxDelivery] at h
    cases h
    exact fun o ho => ho
  | some md =>
    simp only [filterMaxDelivery] at h
    by_cases hd : pyIsDigit md = true
    · rw [if_pos hd] at h
      cases hy : pyIntDigits? md with
      | none =>
        simp only [hy] at h
        exact Except.noConfusion h
      | some y =>
        simp only [hy] at h
        cases h
        exact fun o ho => (List.mem_filter.mp ho).1
    · rw [if_neg hd] at h
      exact Except.noConfusion h

theorem filterSearch_sub {qs : List OfferRow} {ps : Option String} {o : OfferRow}
    (ho : o ∈ filterSearch qs ps) : o ∈ qs := by
  cases ps with
  | none => exact ho
  | some q =>
    simp only [filterSearch] at ho
    by_cases hq : (q == "") = true
    · rw [if_pos hq] at ho
      exact ho
    · rw [if_neg hq] at ho
      exact (List.mem_filter.mp ho).1

/-- C4 counterexample: `max_delivery_time=²` is not an integer (`int()`
rejects the superscript), yet the request does not fail with
`ValidationError`: `²` passes the `isdigit()` guard and the unhandled
`ValueError` from `int()` escapes the view as a 500 internal error. -/
theorem offer_list_filter_crash_counterexample :
    pyIsDigit "²" = true
  ∧ pyIntDigits? "²" = none
  ∧ applyFilters exStore ⟨none, none, some "²", none⟩
      = Except.error (ApiError.internalError intCrashMsg) :=
  ⟨rfl, rfl, rfl⟩

/-- C4 amended: filtering with a finite `min_price=X` never returns an
offer whose minimum detail price is below X, and `max_delivery_time=Y`
with `int(Y) = y` never returns an offer whose minimum delivery time
exceeds y; when the preceding filters accept, a `min_price` the `Decimal`
constructor rejects fails with `ValidationError` and a
`max_delivery_time` failing `isdigit()` fails with `ValidationError` —
but a `max_delivery_time` made of digit-property characters that `int()`
cannot parse (such as `²`) escapes the guard and crashes with an
unhandled `ValueError` (HTTP 500) instead of `ValidationError`. -/
theorem offer_list_filter_sound (s : Store) (params : OfferListParams) :
    (∀ qs, applyFilters s params = Except.ok qs →
      (∀ mp x, params.minPrice = some mp → decimalParse mp = some (PyDec.fin x) →
        ∀ o ∈ qs, ∃ pr, minPriceAgg s o = some pr ∧ x ≤ pr)
      ∧ (∀ md y, params.maxDeliveryTime = some md → pyIntDigits? md = some y →
        ∀ o ∈ qs, ∃ t, minDeliveryAgg s o = some t ∧ t ≤ (y : Int)))
  ∧ (∀ mp q1, filterCreator s.offers params.creatorId = Except.ok q1 →
      params.minPrice = some mp → decimalParse mp = none →
      applyFilters s params
        = Except.error (ApiError.validationError "min_price: Must be a number."))
  ∧ (∀ md q1 q2, filterCreator s.offers params.creatorId = Except.ok q1 →
      filterMinPrice s q1 params.minPrice = Except.ok q2 →
      params.maxDeliveryTime = some md → pyIsDigit md = false →
      applyFilters s params
        = Except.error (ApiError.validationError "max_delivery_time: Must be an integer."))
  ∧ (∀ md q1 q2, filterCreator s.offers params.creatorId = Except.ok q1 →
      filterMinPrice s q1 params.minPrice = Except.ok q2 →
      params.maxDeliveryTime = some md → pyIsDigit md = true → pyIntDigits? md = none →
      applyFilters s params = Except.error (ApiError.internalError intCrashMsg)) := by
  refine ⟨?_, ?_, ?_, ?_⟩
  · intro qs h
    unfold applyFilters at h
    cases h1 : filterCreator s.offers params.creatorId with
    | error e =>
      simp only [h1] at h
      exact Except.noConfusion h
    | ok q1 =>
      simp only [h1] at h
      cases h2 : filterMinPrice s q1 params.minPrice with
      | error e =>
        simp only [h2] at h
        exact Except.noConfusion h
      | ok q2 =>
        simp only [h2] at h
        cases h3 : filterMaxDelivery s q2 params.maxDeliveryTime with
        | error e =>
          simp only [h3] at h
          exact Except.noConfusion h
        | ok q3 =>
          simp only [h3] at h
          cases h
          constructor
          · intro mp x hmp hx o ho
            rw [hmp] at h2
            have ho3 : o ∈ q3 := filterSearch_sub ho
            have ho2 : o ∈ q2 := filterMaxDelivery_ok_sub h3 o ho3
            exact (filterMinPrice_mem h2 hx ho2).2
          · intro md y hmd hy o ho
            rw [hmd] at h3
            have ho3 : o ∈ q3 := filterSearch_sub ho
            exact (filterMaxDelivery_mem h3 hy ho3).2
  · intro mp q1 h1 hmp hparse
    simp only [applyFilters, h1, hmp, filterMinPrice, hparse]
  · intro md q1 q2 h1 h2 hmd hdig
    simp [applyFilters, h1, h2, hmd, filterMaxDelivery, hdig]
  · intro md q1 q2 h1 h2 hmd hdig hint
    simp [applyFilters, h1, h2, hmd, filterMaxDelivery, hdig, hint]

/-- Witness for C4's amended statement: in the populated store,
`min_price=50` keeps the offer (minimum detail price 100 ≥ 50), while
`min_price=abc` and `max_delivery_time=3.5` are rejected with
`ValidationError`. -/
theorem offer_list_filter_sound_witness :
    (∃ pr, minPriceAgg exStore ⟨10, 1, "Offer", none, "d"⟩ = some pr ∧ (50 : Rat) ≤ pr)
  ∧ applyFilters exStore ⟨none, some "abc", none, none⟩
      = Except.error (ApiError.validationError "min_price: Must be a number.")
  ∧ applyFilters exStore ⟨none, none, some "3.5", none⟩
      = Except.error (ApiError.validationError "max_delivery_time: Must be an integer.") := by
  have hp : decimalParse "50" = some (PyDec.fin 50) := by
    have hstep : decimalParse "50" = some (decimalFin ['5', '0'] [] 0 false) := rfl
    have h1 : ndVal ['5', '0'] = 50 := rfl
    have h2 : ndVal ([] : List Char) = 0 := rfl
    rw [hstep]
    simp only [decimalFin]
    rw [h1, h2]
    norm_num
  have happ : applyFilters exStore ⟨none, some "50", none, none⟩
      = Except.ok [⟨10, 1, "Offer", none, "d"⟩] := by
    have h1 : filterCreator exStore.offers none = Except.ok exStore.offers := rfl
    have h2 : filterMinPrice exStore exStore.offers (some "50")
        = Except.ok (exStore.offers.filter
            (fun o => minPriceGE (minPriceAgg exStore o) (PyDec.fin 50))) := by
      simp only [filterMinPrice, hp]
    have h3 : exStore.offers.filter
          (fun o => minPriceGE (minPriceAgg exStore o) (PyDec.fin 50))
        = [⟨10, 1, "Offer", none, "d"⟩] := by decide
    simp only [applyFilters, h1, h2, h3, filterMaxDelivery, filterSearch]
  refine ⟨?_, ?_, ?_⟩
  · exact ((offer_list_filter_sound exStore ⟨none, some "50", none, none⟩).1
      [⟨10, 1, "Offer", none, "d"⟩] happ).1 "50" 50 rfl hp
      ⟨10, 1, "Offer", none, "d"⟩ (List.mem_singleton.mpr rfl)
  · exact (offer_list_filter_sound exStore ⟨none, some "abc", none, none⟩).2.1
      "abc" exStore.offers rfl rfl rfl
  · exact (offer_list_filter_sound exStore ⟨none, none, some "3.5", none⟩).2.2.1
      "3.5" exStore.offers exStore.offers rfl rfl rfl rfl

/-- C5: A PATCH on an Order whose payload contains any key other than
`status` fails with `ValidationError` before anything is looked up or
persisted, leaving the store unchanged; with the order resolved and the
requester permitted, a `status` value outside
in_progress/completed/cancelled also fails with `ValidationError` and
changes nothing. -/
theorem order_patch_only_status (s : Store) (uid orderId : Nat)
    (payload : List (String × String)) :
    ((∃ kv ∈ payload, kv.1 ≠ "status") →
      ∃ m, ordersPartialUpdate s uid orderId payload
        = (s, Except.error (ApiError.validationError m)))
  ∧ (∀ o v, (∀ kv ∈ payload, kv.1 = "status") →
      findOrder s orderId = some o →
      hasObjectPermissionOrderBusiness s (some uid) o = true →
      payload.find? (fun kv => kv.1 == "status") = some v →
      orderStatusChoices.contains v.2 = false →
      ordersPartialUpdate s uid orderId payload
        = (s, Except.error (ApiError.validationError "status: not a valid choice."))) := by
  constructor
  · rintro ⟨kv, hkv, hne⟩
    have hany : (payload.any (fun kv => kv.1 != "status")) = true :=
      List.any_eq_true.mpr ⟨kv, hkv, bne_iff_ne.mpr hne⟩
    have hval : validatePatchOnlyStatus payload
        = some (ApiError.validationError
            "Only 'status' may be updated. Invalid fields present.") := by
      unfold validatePatchOnlyStatus
      rw [if_pos hany]
    refine ⟨"Only 'status' may be updated. Invalid fields present.", ?_⟩
    simp only [ordersPartialUpdate, hval]
  · intro o v hall hfind hperm hfindkv hchoice
    have hany : (payload.any (fun kv => kv.1 != "status")) = false := by
      rw [List.any_eq_false]
      intro kv hkv
      simp [hall kv hkv]
    have hval : validatePatchOnlyStatus payload = none := by
      unfold validatePatchOnlyStatus
      rw [if_neg (by rw [hany]; simp)]
    simp only [ordersPartialUpdate, hval, hfind, hperm, Bool.not_true, Bool.false_eq_true,
      if_false, hfindkv, hchoice, Bool.not_false, if_true]

/-- Witness for C5: a payload with an extra `note` key is rejected, and a
bogus status on order 500 (requested by its business user 1) is rejected;
the store is unchanged in both cases. -/
theorem order_patch_only_status_witness :
    (∃ m, ordersPartialUpdate exStore 1 500 [("status", "completed"), ("note", "x")]
      = (exStore, Except.error (ApiError.validationError m)))
  ∧ ordersPartialUpdate exStore 1 500 [("status", "bogus")]
      = (exStore, Except.error (ApiError.validationError "status: not a valid choice.")) := by
  constructor
  · exact (order_patch_only_status exStore 1 500 [("status", "completed"), ("note", "x")]).1
      ⟨("note", "x"), by decide, by decide⟩
  · exact (order_patch_only_status exStore 1 500 [("status", "bogus")]).2
      ⟨500, 2, 1, some 100, "Basic", 1, 3, 100, ["a"], "basic", "in_progress"⟩
      ("status", "bogus") (by decide) rfl rfl rfl rfl

/-- C7 counterexample: user 1 is the business party of the order but
carries a customer profile, and `IsOrderBusinessUser` denies the status
update; the claim that the check is only against the order's business
identity is false on the code. -/
theorem order_status_permission_counterexample :
    c7order.businessUserId = 1
  ∧ hasObjectPermissionOrderBusiness c7store (some 1) c7order = false :=
  ⟨rfl, rfl⟩

/-- C7 amended: UpdateStatus is permitted exactly when the principal
is authenticated, the principal's profile type is `business`, and the
principal's id equals the order's `business_user` id. -/
theorem order_status_permission_characterization (s : Store) (uid : Nat) (o : OrderRow) :
    hasObjectPermissionOrderBusiness s none o = false
  ∧ (hasObjectPermissionOrderBusiness s (some uid) o = true
      ↔ (profileTypeOf s uid = "business" ∧ o.businessUserId = uid)) := by
  refine ⟨rfl, ?_⟩
  unfold hasObjectPermissionOrderBusiness
  rw [Bool.and_eq_true, beq_iff_eq, beq_iff_eq]

/-- C8 counterexample: in the populated store, order 500 references
detail 100 of offer 10; the owner's Delete of offer 10 does NOT succeed
with a nulled reference: it is blocked by the `PROTECT` foreign key, the
store is unchanged and the order still points at detail 100. -/
theorem offer_destroy_blocked_counterexample :
    offerDestroy exStore 1 10 = (exStore, Except.error (ApiError.protectedError protectMsg))
  ∧ exStore.orders.map (·.offerDetailId) = [some 100] :=
  ⟨rfl, rfl⟩

/-- C8 amended: `Order.offer_detail` is nullable but protected:
the owner's Delete of an Offer (which cascades to its OfferDetails) fails
with `ProtectedError` and changes nothing while any Order references one
of those details; when no Order does, the deletion succeeds, removes the
offer and its details, and leaves the orders table untouched. -/
theorem offer_destroy_protected (s : Store) (uid oid : Nat) (off : OfferRow)
    (hfind : findOffer s oid = some off) (hown : off.ownerId = uid) :
    ((∃ o ∈ s.orders, ∃ d ∈ detailsOf s oid, o.offerDetailId = some d.id) →
      offerDestroy s uid oid = (s, Except.error (ApiError.protectedError protectMsg)))
  ∧ ((¬ ∃ o ∈ s.orders, ∃ d ∈ detailsOf s oid, o.offerDetailId = some d.id) →
      (offerDestroy s uid oid).1.orders = s.orders
      ∧ (offerDestroy s uid oid).2 = Except.ok ()
      ∧ detailsOf (offerDestroy s uid oid).1 oid = []
      ∧ findOffer (offerDestroy s uid oid).1 oid = none) := by
  have hbne : (off.ownerId != uid) = false := by
    simp [hown]
  have hanyiff : (s.orders.any (fun o => (detailsOf s oid).any
      (fun d => o.offerDetailId == some d.id))) = true
      ↔ (∃ o ∈ s.orders, ∃ d ∈ detailsOf s oid, o.offerDetailId = some d.id) := by
    rw [List.any_eq_true]
    constructor
    · rintro ⟨o, ho, hin⟩
      obtain ⟨d, hd, hbeq⟩ := List.any_eq_true.mp hin
      exact ⟨o, ho, d, hd, eq_of_beq hbeq⟩
    · rintro ⟨o, ho, d, hd, heq⟩
      exact ⟨o, ho, List.any_eq_true.mpr ⟨d, hd, beq_iff_eq.mpr heq⟩⟩
  constructor
  · intro hex
    have hany := hanyiff.mpr hex
    simp only [offerDestroy, hfind, hbne, Bool.false_eq_true, if_false, hany, if_true]
  · intro hnex
    have hany : (s.orders.any (fun o => (detailsOf s oid).any
        (fun d => o.offerDetailId == some d.id))) = false := by
      cases hq : (s.orders.any (fun o => (detailsOf s oid).any
          (fun d => o.offerDetailId == some d.id))) with
      | true => exact absurd (hanyiff.mp hq) hnex
      | false => rfl
    have heq : offerDestroy s uid oid =
        ({ s with
            offers := s.offers.filter (fun x => !(x.id == oid)),
            offerDetails := s.offerDetails.filter (fun d => !(d.offerId == oid)) },
          Except.ok ()) := by
      simp only [offerDestroy, hfind, hbne, Bool.false_eq_true, if_false, hany]
    rw [heq]
    refine ⟨rfl, rfl, ?_, ?_⟩
    · show (s.offerDetails.filter (fun d => !(d.offerId == oid))).filter
        (fun d => d.offerId == oid) = []
      rw [List.filter_eq_nil_iff]
      intro d hd
      have := (List.mem_filter.mp hd).2
      simp only [Bool.not_eq_eq_eq_not, Bool.not_true] at this
      simp [this]
    · show (s.offers.filter (fun x => !(x.id == oid))).find?
        (fun o => o.id == oid) = none
      rw [List.find?_eq_none]
      intro x hx
      have := (List.mem_filter.mp hx).2
      simp only [Bool.not_eq_eq_eq_not, Bool.not_true] at this
      simp [this]

/-- Witness for C8's amended statement: deletion of offer 10 is blocked in
the populated store (order 500 references detail 100), and succeeds in the
same store with the orders table emptied, leaving orders untouched. -/
theorem offer_destroy_protected_witness :
    offerDestroy exStore 1 10 = (exStore, Except.error (ApiError.protectedError protectMsg))
  ∧ (offerDestroy { exStore with orders := [] } 1 10).2 = Except.ok () := by
  constructor
  · exact (offer_destroy_protected exStore 1 10 ⟨10, 1, "Offer", none, "d"⟩ rfl rfl).1
      ⟨⟨500, 2, 1, some 100, "Basic", 1, 3, 100, ["a"], "basic", "in_progress"⟩, by decide,
        ⟨100, 10, "Basic", 1, 3, 100, ["a"], "basic"⟩, by decide, rfl⟩
  · exact ((offer_destroy_protected { exStore with orders := [] } 1 10
      ⟨10, 1, "Offer", none, "d"⟩ rfl rfl).2 (by rintro ⟨o, ho, _⟩; cases ho)).2.1

/-- C9: A PATCH on a Profile id by an authenticated non-owner yields
the same `PermissionError` response whatever the store contains (the
profile lookup happens only after the ownership check), so the response
discloses nothing about the target's existence; the store is unchanged. -/
theorem profile_patch_no_existence_disclosure (s1 s2 : Store) (uid pk : Nat)
    (h : uid ≠ pk) :
    profileGetObjectPatch s1 uid pk
      = (s1, Except.error (ApiError.permissionDenied ownProfileMsg))
  ∧ (profileGetObjectPatch s1 uid pk).2 = (profileGetObjectPatch s2 uid pk).2 := by
  have e1 : profileGetObjectPatch s1 uid pk
      = (s1, Except.error (ApiError.permissionDenied ownProfileMsg)) := by
    unfold profileGetObjectPatch
    rw [if_pos (bne_iff_ne.mpr h)]
  have e2 : profileGetObjectPatch s2 uid pk
      = (s2, Except.error (ApiError.permissionDenied ownProfileMsg)) := by
    unfold profileGetObjectPatch
    rw [if_pos (bne_iff_ne.mpr h)]
  exact ⟨e1, by rw [e1, e2]⟩

/-- Witness for C9: user 2 patching profile id 1 gets the identical
permission error whether the store holds profile 1 (`exStore`) or nothing
(`emptyStore`). -/
theorem profile_patch_no_existence_disclosure_witness :
    profileGetObjectPatch exStore 2 1
      = (exStore, Except.error (ApiError.permissionDenied ownProfileMsg))
  ∧ (profileGetObjectPatch exStore 2 1).2 = (profileGetObjectPatch emptyStore 2 1).2 :=
  profile_patch_no_existence_disclosure exStore emptyStore 2 1 (by decide)

/-- C10: `order-count` counts exactly the business user's orders with
status `in_progress` (appending a completed or cancelled order leaves it
unchanged), and `completed-order-count` counts exactly those with status
`completed`. -/
theorem order_count_status_binding (s : Store) (b : Nat) (u : UserRow)
    (h : businessUserOr404 s b = some u) :
    orderCountGet s b = Except.ok (s.orders.countP
        (fun o => o.businessUserId == u.id && o.status == "in_progress"))
  ∧ completedOrderCountGet s b = Except.ok (s.orders.countP
        (fun o => o.businessUserId == u.id && o.status == "completed"))
  ∧ (∀ o : OrderRow, o.status = "completed" ∨ o.status = "cancelled" →
      orderCountGet { s with orders := s.orders ++ [o] } b = orderCountGet s b)
  ∧ (∀ o : OrderRow, o.businessUserId = u.id → o.status = "in_progress" →
      orderCountGet { s with orders := s.orders ++ [o] } b
        = Except.ok (s.orders.countP
            (fun o => o.businessUserId == u.id && o.status == "in_progress") + 1)) := by
  have hbase : orderCountGet s b = Except.ok (s.orders.countP
      (fun o => o.businessUserId == u.id && o.status == "in_progress")) := by
    simp only [orderCountGet, h, countOrders]
  refine ⟨hbase, ?_, ?_, ?_⟩
  · simp only [completedOrderCountGet, h, countOrders]
  · intro o hst
    have h2 : businessUserOr404 { s with orders := s.orders ++ [o] } b = some u := h
    simp only [orderCountGet, h, h2, countOrders, List.countP_append]
    have : ([o].countP (fun x => x.businessUserId == u.id && x.status == "in_progress")) = 0 := by
      cases hst with
      | inl hc => simp [List.countP, List.countP.go, hc]
      | inr hc => simp [List.countP, List.countP.go, hc]
    rw [this, Nat.add_zero]
  · intro o hb hst
    have h2 : businessUserOr404 { s with orders := s.orders ++ [o] } b = some u := h
    simp only [orderCountGet, h2, countOrders, List.countP_append]
    have : ([o].countP (fun x => x.businessUserId == u.id && x.status == "in_progress")) = 1 := by
      simp [List.countP, List.countP.go, hb, hst]
    rw [this]

/-- Witness for C10: in the populated store, business user 1 has one
in-progress order and zero completed orders. -/
theorem order_count_status_binding_witness :
    orderCountGet exStore 1 = Except.ok 1
  ∧ completedOrderCountGet exStore 1 = Except.ok 0 := by
  have h := order_count_status_binding exStore 1 ⟨1⟩ rfl
  exact ⟨h.1.trans rfl, h.2.1.trans rfl⟩

end Coderr
